import Mathlib

/-!
Verification of the NotebookBobu API client (TypeScript repository
`notebookbobu-api`) against its natural-language specification.

The development shallowly embeds the client `NotebookBobuClient`
(src/client/notebookbobu-client.ts) and the standalone integration-test
scripts (the explicit multipart serializer `createMultipartBody`, the
wire-level `uploadDocument`, and the `makeRequest` helper).  HTTP traffic
is modelled by a request description consumed by the remote service and a
response record produced by it; the outcome of the JavaScript runtime's
`JSON.parse` / `response.json()` on a response body is modelled by the
`ParsedBody` field of the response.
-/

namespace NotebookBobu

/-- UTF-8 byte length of a string, as computed by Node's
`Buffer.byteLength` on the wire body. -/
def byteLength (s : String) : Nat := s.utf8ByteSize

/-- Prefix test on character lists. -/
def charsPrefix : List Char → List Char → Bool
  | [], _ => true
  | _ :: _, [] => false
  | a :: as, b :: bs => a == b && charsPrefix as bs

/-- Occurrence test of a character list inside another. -/
def charsContains : List Char → List Char → Bool
  | sub, [] => sub.isEmpty
  | sub, a :: t => charsPrefix sub (a :: t) || charsContains sub t

/-- Substring test `containsStr s sub`, modelling the
`message.includes(...)` checks of the test scripts. -/
def containsStr (s sub : String) : Bool := charsContains sub.data s.data

/-- Split of a character list at every occurrence of a character,
keeping empty segments. -/
def splitOnChar (c : Char) : List Char → List (List Char)
  | [] => [[]]
  | a :: as =>
      match splitOnChar c as with
      | [] => if a == c then [[], []] else [[a]]
      | h :: t => if a == c then [] :: h :: t else (a :: h) :: t

/-- Split of a string at every newline, modelling JavaScript's
`split('\n')` (empty segments kept, as in JavaScript). -/
def splitNewlines (s : String) : List String :=
  (splitOnChar '\n' s.data).map (fun l => String.mk l)

/-- JavaScript `a || b` on a possibly-absent string: an absent value and
the empty string are falsy and select `b`. -/
def jsOrStr (a : Option String) (b : String) : String :=
  match a with
  | some s => if s = "" then b else s
  | none => b

/-! ## Responses and body parsing

`ParsedBody` records what the runtime's JSON parsing of the response body
yields: a JSON value (with the optional string member `detail` the client
reads, and its `JSON.stringify` image), or a parse failure for a non-JSON
body. -/

/-- Outcome of parsing a response body as JSON. -/
inductive ParsedBody where
  | jsonBody (detail : Option String) (stringified : String)
  | notJson
deriving DecidableEq

/-- An HTTP response as observed by the client: status code, status text,
raw body text, and the JSON-parse outcome of that body. -/
structure HttpResponse where
  status : Nat
  statusText : String
  rawBody : String
  parsed : ParsedBody
deriving DecidableEq

/-- Embeds `response.ok` of fetch (and the scripts' explicit
`statusCode >= 200 && statusCode < 300` check). -/
def respOk (r : HttpResponse) : Bool := 200 ≤ r.status && r.status < 300

/-! ## The multipart serializer of the integration scripts

`createMultipartBody` is embedded from src/unnamed/part_000 lines 55-78
(the identical copy is src/unnamed/part_001 lines 10-33).  The boundary is
`'----formdata-boundary-' + Math.random().toString(36)`; the random
suffix is a parameter of the embedding. -/

/-- The `file` argument of `createMultipartBody`: filename, raw content
and content type. -/
structure FilePart where
  filename : String
  content : String
  contentType : String

/-- The pair `{ body, boundary }` returned by `createMultipartBody`. -/
structure MultipartResult where
  body : String
  boundary : String

/-- Embeds `createMultipartBody(fields, file)`: serializes each form
field, then the optional file part, then the closing boundary line,
accumulating into `body` exactly as the script's `+=` chain does. -/
def createMultipartBody (randomSuffix : String)
    (fields : List (String × String)) (file : Option FilePart) :
    MultipartResult :=
  let boundary := "----formdata-boundary-" ++ randomSuffix
  let fieldsBody := fields.foldl (fun body kv =>
    body ++ ("--" ++ boundary ++ "\r\n") ++
      ("Content-Disposition: form-data; name=\"" ++ kv.1 ++ "\"\r\n\r\n") ++
      (kv.2 ++ "\r\n")) ""
  let withFile :=
    match file with
    | some f =>
        fieldsBody ++ ("--" ++ boundary ++ "\r\n") ++
          ("Content-Disposition: form-data; name=\"file\"; filename=\"" ++
            f.filename ++ "\"\r\n") ++
          ("Content-Type: " ++ f.contentType ++ "\r\n\r\n") ++
          (f.content ++ "\r\n")
    | none => fieldsBody
  { body := withFile ++ ("--" ++ boundary ++ "--\r\n"), boundary := boundary }

/-- A part of a `multipart/form-data` body, following the spec's wording:
a plain text field, or a file part carrying filename, content type and
raw bytes. -/
inductive MultipartPart where
  | textField (name value : String)
  | filePart (filename contentType content : String)

/-- Serialization of a single multipart part between boundary lines. -/
def serializePart (boundary : String) : MultipartPart → String
  | MultipartPart.textField n v =>
      ("--" ++ boundary ++ "\r\n") ++
        ("Content-Disposition: form-data; name=\"" ++ n ++ "\"\r\n\r\n") ++
        (v ++ "\r\n")
  | MultipartPart.filePart fn ct c =>
      ("--" ++ boundary ++ "\r\n") ++
        ("Content-Disposition: form-data; name=\"file\"; filename=\"" ++
          fn ++ "\"\r\n") ++
        ("Content-Type: " ++ ct ++ "\r\n\r\n") ++
        (c ++ "\r\n")

/-- Serialization of a list of multipart parts followed by the closing
boundary; stated from the spec's description of the upload body so that
the script's serializer can be compared against it. -/
def serializeMultipart (boundary : String) (parts : List MultipartPart) :
    String :=
  (parts.foldl (fun acc p => acc ++ serializePart boundary p) "") ++
    ("--" ++ boundary ++ "--\r\n")

/-! ## The wire-level upload request of the scripts -/

/-- The request the script `uploadDocument` puts on the wire: url,
method, headers, and the body string passed to `req.write`. -/
structure WireRequest where
  url : String
  method : String
  headers : List (String × String)
  writtenBody : String

/-- Lookup of a header value in a JavaScript header object built from a
list of entries where a later entry overrides an earlier one with the
same name. -/
def headerValue (hs : List (String × String)) (k : String) :
    Option String :=
  (hs.reverse.find? (fun kv => kv.1 == k)).map (fun kv => kv.2)

/-- Embeds `uploadDocument(endpoint, title, filename, content,
contentType)` of src/unnamed/part_000 lines 80-122 (identical copy in
src/unnamed/part_001 lines 35-88): builds the multipart body from the
single `title` field plus the file, and sends it with the Authorization,
Content-Type (with boundary) and Content-Length headers, writing exactly
the serialized body. -/
def uploadDocument (apiBase apiKey randomSuffix endpoint title filename
    content contentType : String) : WireRequest :=
  let mp := createMultipartBody randomSuffix [("title", title)]
    (some { filename := filename, content := content,
            contentType := contentType })
  { url := apiBase ++ "/api" ++ endpoint
  , method := "POST"
  , headers :=
      [("Authorization", "Bearer " ++ apiKey),
       ("Content-Type", "multipart/form-data; boundary=" ++ mp.boundary),
       ("Content-Length", toString (byteLength mp.body))]
  , writtenBody := mp.body }

/-! ## JSON values and `JSON.stringify` of object literals

Only the shapes the client actually serializes are needed: strings,
arrays of strings, and the `undefined` an omitted optional argument
produces. -/

/-- A JavaScript value appearing as a member of a serialized object
literal. -/
inductive JsonValue where
  | str (s : String)
  | arr (xs : List JsonValue)
  | undef

/-- Whether a member value is `undefined`. -/
def isUndef : JsonValue → Bool
  | JsonValue.undef => true
  | _ => false

/-- The members `JSON.stringify` actually serializes from an object
literal: members whose value is `undefined` are omitted (runtime
behavior of `JSON.stringify`). -/
def serializedMembers (obj : List (String × JsonValue)) :
    List (String × JsonValue) :=
  obj.filter (fun kv => !(isUndef kv.2))

/-- Embeds the object literal of `NotebookBobuClient.query`:
`\x7b question: question, document_ids: documentIds \x7d`, where an
omitted `documentIds` argument is `undefined`. -/
def queryLiteral (question : String) (documentIds : Option (List String)) :
    List (String × JsonValue) :=
  [("question", JsonValue.str question),
   ("document_ids",
     match documentIds with
     | some l => JsonValue.arr (l.map JsonValue.str)
     | none => JsonValue.undef)]

/-! ## The client `NotebookBobuClient` -/

/-- An entry appended to the `FormData` of `uploadFile`: either a file
entry (field name, filename, raw bytes) or a plain text entry. -/
inductive FormDataEntry where
  | fileEntry (name filename bytes : String)
  | textEntry (name value : String)
deriving DecidableEq

/-- Embeds the `FormData` built by `NotebookBobuClient.uploadFile` for a
`Buffer` content: `formData.append('file', new Blob([file]), filename)`
then `formData.append('title', title)`. -/
def uploadFileEntries (content filename title : String) :
    List FormDataEntry :=
  (([] : List FormDataEntry).concat
      (FormDataEntry.fileEntry "file" filename content)).concat
    (FormDataEntry.textEntry "title" title)

/-- The body a client request sends: none, a `JSON.stringify`-serialized
object literal, or a `FormData`. -/
inductive RequestBody where
  | noBody
  | jsonObject (members : List (String × JsonValue))
  | formData (entries : List FormDataEntry)

/-- The outbound request a client operation hands to `fetch`. -/
structure RequestDescr where
  url : String
  method : String
  headers : List (String × String)
  body : RequestBody

/-- The client's only state: base URL and API key
(`NotebookBobuClient`'s two private fields). -/
structure Client where
  baseUrl : String
  apiKey : String
deriving DecidableEq

/-- Embeds the `fetch` call of `NotebookBobuClient.request`: url is
`baseUrl + '/api' + endpoint`; the header object spreads the
Authorization and Content-Type defaults first and then any headers from
`options` (a later entry overrides an earlier one under `headerValue`).
No call site of `request` inside the client passes extra headers. -/
def clientRequestDescr (c : Client) (endpoint method : String)
    (extraHeaders : List (String × String)) (body : RequestBody) :
    RequestDescr :=
  { url := c.baseUrl ++ "/api" ++ endpoint
  , method := method
  , headers :=
      [("Authorization", "Bearer " ++ c.apiKey),
       ("Content-Type", "application/json")] ++ extraHeaders
  , body := body }

/-- Embeds the `fetch` call of `NotebookBobuClient.uploadFile`: a POST
whose explicit headers contain only the Authorization entry (the runtime
adds the multipart Content-Type when serializing the `FormData`). -/
def uploadRequestDescr (c : Client) (endpoint : String)
    (entries : List FormDataEntry) : RequestDescr :=
  { url := c.baseUrl ++ "/api" ++ endpoint
  , method := "POST"
  , headers := [("Authorization", "Bearer " ++ c.apiKey)]
  , body := RequestBody.formData entries }

/-- Models the runtime's `URLSearchParams` serialization used by
`searchDocuments`; percent-encoding is runtime behavior no claim depends
on and is not modelled. -/
def searchParams (q : String) (limit : Nat) : String :=
  "q=" ++ q ++ "&limit=" ++ toString limit

/-- The public operations of `NotebookBobuClient`, each carrying its
arguments. -/
inductive ClientOp where
  | processDocument (content filename title : String)
  | processDocumentV2 (content filename title : String)
  | getDocuments
  | getDocumentsV2
  | getDocument (id : String)
  | getDocumentV2 (id : String)
  | deleteDocument (id : String)
  | deleteDocumentV2 (id : String)
  | query (question : String) (documentIds : Option (List String))
  | getChatHistory
  | searchDocuments (q : String) (limit : Nat)
  | getDocumentChunks (id : String)
  | healthCheck
  | ping

/-- The outbound request each client operation issues, embedded from the
method bodies of `NotebookBobuClient` (endpoint strings, methods and
bodies exactly as in the source; `fetch` defaults the method to GET when
`options` carries none). -/
def opRequest (c : Client) : ClientOp → RequestDescr
  | ClientOp.processDocument content filename title =>
      uploadRequestDescr c "/process" (uploadFileEntries content filename title)
  | ClientOp.processDocumentV2 content filename title =>
      uploadRequestDescr c "/v2/process" (uploadFileEntries content filename title)
  | ClientOp.getDocuments =>
      clientRequestDescr c "/documents" "GET" [] RequestBody.noBody
  | ClientOp.getDocumentsV2 =>
      clientRequestDescr c "/v2/documents" "GET" [] RequestBody.noBody
  | ClientOp.getDocument id =>
      clientRequestDescr c ("/documents/" ++ id) "GET" [] RequestBody.noBody
  | ClientOp.getDocumentV2 id =>
      clientRequestDescr c ("/v2/documents/" ++ id) "GET" [] RequestBody.noBody
  | ClientOp.deleteDocument id =>
      clientRequestDescr c ("/documents/" ++ id) "DELETE" [] RequestBody.noBody
  | ClientOp.deleteDocumentV2 id =>
      clientRequestDescr c ("/v2/documents/" ++ id) "DELETE" [] RequestBody.noBody
  | ClientOp.query question documentIds =>
      clientRequestDescr c "/query" "POST" []
        (RequestBody.jsonObject (queryLiteral question documentIds))
  | ClientOp.getChatHistory =>
      clientRequestDescr c "/chat-history" "GET" [] RequestBody.noBody
  | ClientOp.searchDocuments q limit =>
      clientRequestDescr c ("/v2/search?" ++ searchParams q limit) "GET" []
        RequestBody.noBody
  | ClientOp.getDocumentChunks id =>
      clientRequestDescr c ("/v2/documents/" ++ id ++ "/chunks") "GET" []
        RequestBody.noBody
  | ClientOp.healthCheck =>
      clientRequestDescr c "/health" "GET" [] RequestBody.noBody
  | ClientOp.ping =>
      clientRequestDescr c "/ping" "GET" [] RequestBody.noBody

/-- The message of the `Error` thrown by `NotebookBobuClient.request`
(and identically by `uploadFile`) on a non-ok response: the `detail`
member of the JSON body; an empty message when the JSON body has no
`detail` (JavaScript `new Error(undefined)`); and the catch-substituted
detail for a body `response.json()` cannot parse. -/
def clientErrorMessage (r : HttpResponse) : String :=
  match r.parsed with
  | ParsedBody.jsonBody (some d) _ => d
  | ParsedBody.jsonBody none _ => ""
  | ParsedBody.notJson =>
      "HTTP " ++ toString r.status ++ ": " ++ r.statusText

/-- Embeds the response handling shared verbatim by
`NotebookBobuClient.request` and `NotebookBobuClient.uploadFile`: on an
ok response return `response.json()` (which rejects when the body is not
JSON — a runtime parse failure); otherwise throw an `Error` carrying
`clientErrorMessage`. -/
def clientHandleResponse (r : HttpResponse) : Except String ParsedBody :=
  if respOk r then
    match r.parsed with
    | ParsedBody.notJson => Except.error "SyntaxError: response body is not JSON"
    | p => Except.ok p
  else
    Except.error (clientErrorMessage r)

/-! ## A trace model for client calls

A client call is a program that may perform `fetch` steps; each step
names the request and continues with the response.  Every method of
`NotebookBobuClient` performs a single awaited `fetch` followed by pure
response handling, with no loop. -/

/-- A program over HTTP: either a final value, or one `fetch` of a
request followed by a continuation on its response. -/
inductive HttpProg (α : Type) where
  | pure (a : α)
  | fetch (req : RequestDescr) (k : HttpResponse → HttpProg α)

/-- Number of fetches a program performs when the network behaves as
`oracle`. -/
def fetchCount {α : Type} : HttpProg α → (RequestDescr → HttpResponse) → Nat
  | HttpProg.pure _, _ => 0
  | HttpProg.fetch req k, oracle => 1 + fetchCount (k (oracle req)) oracle

/-- The final value a program produces when the network behaves as
`oracle`. -/
def runProg {α : Type} : HttpProg α → (RequestDescr → HttpResponse) → α
  | HttpProg.pure a, _ => a
  | HttpProg.fetch req k, oracle => runProg (k (oracle req)) oracle

/-- The program of a client operation: one `fetch` of its request, then
the shared response handling — the exact shape of `request` and
`uploadFile`, through which every public method goes. -/
def opProg (c : Client) (op : ClientOp) :
    HttpProg (Except String ParsedBody) :=
  HttpProg.fetch (opRequest c op)
    (fun r => HttpProg.pure (clientHandleResponse r))

/-- The result of a client operation under a network oracle. -/
def opResult (c : Client) (op : ClientOp)
    (oracle : RequestDescr → HttpResponse) : Except String ParsedBody :=
  runProg (opProg c op) oracle

/-! ## The scripts' `makeRequest` error handling -/

/-- The message of the rejection `makeRequest` produces on a non-2xx
response (src/unnamed/part_000 lines 27-41, identical copy in
src/unnamed/part_001): for a JSON body, `HTTP status: detail` falling
back to `JSON.stringify(jsonData)` when `detail` is absent or falsy; for
a non-JSON body, `HTTP status:` followed by the raw body. -/
def makeRequestErrorMessage (r : HttpResponse) : String :=
  match r.parsed with
  | ParsedBody.jsonBody detail stringified =>
      "HTTP " ++ toString r.status ++ ": " ++ jsOrStr detail stringified
  | ParsedBody.notJson =>
      "HTTP " ++ toString r.status ++ ": " ++ r.rawBody

/-- Embeds `makeRequest`'s settling of its promise: resolve the parse
outcome on a 2xx status (the raw text when the body is not JSON), reject
with `makeRequestErrorMessage` otherwise. -/
def makeRequestResult (r : HttpResponse) : Except String ParsedBody :=
  if respOk r then Except.ok r.parsed
  else Except.error (makeRequestErrorMessage r)

/-! ## The spec's error taxonomy

The serverless backend choosing failure responses is not part of the
repository; only the client and its test scripts are.  The taxonomy is
therefore modelled from the spec: each failure condition the server can
report maps to one error type, and the tests pin the invalid-key detail
message (`testInvalidAuth` checks `error.message.includes('Invalid API
key')`). -/

/-- The error types of the spec's taxonomy. -/
inductive ErrorKind where
  | authError
  | validationError
  | notFoundError
  | serviceError
deriving DecidableEq

/-- The failure conditions a non-2xx response can report, as named by
the spec. -/
inductive ServerCondition where
  | invalidKey
  | malformedRequest
  | unknownDocument
  | otherFailure
deriving DecidableEq

/-- Modelled from the spec: the error type of the taxonomy determined by
each server-reported failure condition — AuthError for a rejected
credential, ValidationError for a malformed request, NotFoundError for
an unknown document id, ServiceError for any other non-success status. -/
def taxonomyKind : ServerCondition → ErrorKind
  | ServerCondition.invalidKey => ErrorKind.authError
  | ServerCondition.malformedRequest => ErrorKind.validationError
  | ServerCondition.unknownDocument => ErrorKind.notFoundError
  | ServerCondition.otherFailure => ErrorKind.serviceError

/-- The invalid-key indicator the repository's tests check for. -/
def invalidKeyDetail : String := "Invalid API key"

/-- Modelled from the spec: the detail message the server sends for each
failure condition.  The backend is missing from the repository; the
tests pin the invalid-key wording, and `d` stands for the server-chosen
wording of the other conditions. -/
def conditionDetail : ServerCondition → String → String
  | ServerCondition.invalidKey, _ => invalidKeyDetail
  | _, d => d

/-! ## The constructor -/

/-- The base URL `NotebookBobuClient` falls back to when none is
given. -/
def defaultBaseUrl : String :=
  "https://notebookbobu-g1wdc943m-sentinel-io.vercel.app"

/-- The message of the error the constructor throws without a key. -/
def keyRequiredMessage : String :=
  "API key is required. Set INBOX_ZERO_API_KEY environment variable or pass it to constructor."

/-- Embeds the `NotebookBobuClient` constructor: `baseUrl || default`,
`apiKey || process.env.INBOX_ZERO_API_KEY || ''` (JavaScript falsiness:
an absent argument and the empty string both fall through), throwing
when the resolved key is empty.  `env` is the value of
`INBOX_ZERO_API_KEY`, the empty string when unset. -/
def mkClient (baseUrl apiKey : Option String) (env : String) :
    Except String Client :=
  let resolvedBase := jsOrStr baseUrl defaultBaseUrl
  let resolvedKey := jsOrStr apiKey (jsOrStr (some env) "")
  if resolvedKey = "" then Except.error keyRequiredMessage
  else Except.ok { baseUrl := resolvedBase, apiKey := resolvedKey }

/-! ## Documents and `getDocumentInsights` -/

/-- The fields of the `DocumentResponse` interface that
`getDocumentInsights` reads (the remaining fields of the interface play
no role in any claim; optional TypeScript fields are `Option`s). -/
structure DocumentResponse where
  id : String
  title : String
  summary : Option String
  bullet_points : Option String
  topics : Option (List String)
  confidence : Option String

/-- The record `getDocumentInsights` returns: every field present. -/
structure Insights where
  summary : String
  keyPoints : List String
  topics : List String
  confidence : String
deriving DecidableEq

/-- Embeds the result construction of `getDocumentInsights` on the
document fetched by `getDocumentV2`: `doc.summary || 'No summary
available'`; `doc.bullet_points ? doc.bullet_points.split('\n')
.filter(Boolean) : []` (an absent or empty `bullet_points` is falsy, and
`filter(Boolean)` drops empty lines); `doc.topics || []`;
`doc.confidence || 'unknown'`. -/
def getDocumentInsights (doc : DocumentResponse) : Insights :=
  { summary := jsOrStr doc.summary "No summary available"
  , keyPoints :=
      match doc.bullet_points with
      | some bp =>
          if bp = "" then []
          else (splitNewlines bp).filter (fun l => l ≠ "")
      | none => []
  , topics := doc.topics.getD []
  , confidence := jsOrStr doc.confidence "unknown" }

/-! ## Concrete sample values for witnesses and counterexamples -/

/-- A concrete client. -/
def sampleClient : Client :=
  { baseUrl := "https://service.example", apiKey := "secret-key" }

/-- A concrete 401 response carrying the invalid-key detail. -/
def authFailResponse : HttpResponse :=
  { status := 401, statusText := "Unauthorized", rawBody := "auth-body",
    parsed := ParsedBody.jsonBody (some "Invalid API key") "st" }

/-- A concrete 404 response carrying a not-found detail. -/
def notFoundResponse : HttpResponse :=
  { status := 404, statusText := "Not Found", rawBody := "nf-body",
    parsed := ParsedBody.jsonBody (some "Document not found") "st" }

/-- A concrete 500 response whose body is not JSON. -/
def plainFailResponse : HttpResponse :=
  { status := 500, statusText := "Internal Server Error",
    rawBody := "upstream timeout", parsed := ParsedBody.notJson }

/-- A concrete 502 response whose body is not JSON. -/
def gatewayFailResponse : HttpResponse :=
  { status := 502, statusText := "Bad Gateway", rawBody := "gateway broke",
    parsed := ParsedBody.notJson }

/-- A concrete document response. -/
def sampleDocument : DocumentResponse :=
  { id := "d1", title := "T", summary := some "Sum",
    bullet_points := some "- a\n\n- b", topics := some ["t1"],
    confidence := none }

end NotebookBobu

namespace NotebookBobu

/-! ## Theorems -/

/-- Helper: the multipart body the scripts build from the single `title`
field plus the file equals the serialization of exactly the two parts
the spec describes. -/
theorem upload_body_eq_two_parts (suffix title filename content
    contentType : String) :
    (createMultipartBody suffix [("title", title)]
      (some { filename := filename, content := content,
              contentType := contentType })).body =
    serializeMultipart ("----formdata-boundary-" ++ suffix)
      [MultipartPart.textField "title" title,
       MultipartPart.filePart filename contentType content] := by
  simp only [createMultipartBody, serializeMultipart, serializePart,
    List.foldl, String.empty_append, String.append_assoc]

/-- Helper: every client operation routed through a network oracle that
answers with response `r` produces exactly the shared response handling
of `r`. -/
theorem opResult_const (c : Client) (op : ClientOp) (r : HttpResponse) :
    opResult c op (fun _ => r) = clientHandleResponse r := rfl

/-- C2: for every (content, filename, title) input, `processDocument`
constructs a multipart/form-data body of exactly two parts — a `title`
text field carrying the title and a `file` field carrying filename,
content type and raw bytes — and POSTs it to the upload endpoint, with
no other part: the client's `FormData` holds exactly the file and title
entries, and the scripts' serialized body equals the serialization of
exactly those two parts. -/
theorem c2_upload_multipart_two_parts (c : Client)
    (suffix content filename title contentType : String) :
    (createMultipartBody suffix [("title", title)]
      (some { filename := filename, content := content,
              contentType := contentType })).body =
      serializeMultipart ("----formdata-boundary-" ++ suffix)
        [MultipartPart.textField "title" title,
         MultipartPart.filePart filename contentType content] ∧
    ([MultipartPart.textField "title" title,
      MultipartPart.filePart filename contentType content] :
        List MultipartPart).length = 2 ∧
    uploadFileEntries content filename title =
      [FormDataEntry.fileEntry "file" filename content,
       FormDataEntry.textEntry "title" title] ∧
    (uploadFileEntries content filename title).length = 2 ∧
    (opRequest c (ClientOp.processDocument content filename title)).method
      = "POST" ∧
    (opRequest c (ClientOp.processDocument content filename title)).url
      = c.baseUrl ++ "/api" ++ "/process" ∧
    (opRequest c (ClientOp.processDocument content filename title)).body
      = RequestBody.formData (uploadFileEntries content filename title) :=
  ⟨upload_body_eq_two_parts suffix title filename content contentType,
   rfl, rfl, rfl, rfl, rfl, rfl⟩

/-- C7: for every upload request of the scripts, the Content-Length
header sent equals exactly the byte length of the serialized multipart
body written on the wire. -/
theorem c7_content_length_matches_written_body (apiBase apiKey suffix
    endpoint title filename content contentType : String) :
    headerValue (uploadDocument apiBase apiKey suffix endpoint title
      filename content contentType).headers "Content-Length" =
      some (toString (byteLength (uploadDocument apiBase apiKey suffix
        endpoint title filename content contentType).writtenBody)) ∧
    (uploadDocument apiBase apiKey suffix endpoint title filename content
      contentType).writtenBody =
      (createMultipartBody suffix [("title", title)]
        (some { filename := filename, content := content,
                contentType := contentType })).body :=
  ⟨rfl, rfl⟩

/-- C6: every operation of the client sends the header
`Authorization: Bearer <token>` on its outbound request, where the token
is the client's configured API key. -/
theorem c6_bearer_token_on_every_operation (c : Client) (op : ClientOp) :
    headerValue (opRequest c op).headers "Authorization" =
      some ("Bearer " ++ c.apiKey) := by
  cases op <;> rfl

/-- C8: every client operation issues exactly one outbound HTTP request
per call, whatever the network answers: its trace contains a single
fetch, with no retry, polling or cache-induced skip, and the result is
computed from that single response. -/
theorem c8_single_request_per_call (c : Client) (op : ClientOp)
    (oracle : RequestDescr → HttpResponse) :
    fetchCount (opProg c op) oracle = 1 := rfl

/-- C4: `processDocument` and `processDocumentV2` perform the same
computation and produce results of the same shape, differing only in the
endpoint path (`/process` versus `/v2/process`): method, headers and
body of the two requests coincide, and on every response the two
operations return the identical result. -/
theorem c4_v1_v2_same_computation (c : Client)
    (content filename title : String) :
    (opRequest c (ClientOp.processDocument content filename title)).method
      = (opRequest c (ClientOp.processDocumentV2 content filename title)).method ∧
    (opRequest c (ClientOp.processDocument content filename title)).headers
      = (opRequest c (ClientOp.processDocumentV2 content filename title)).headers ∧
    (opRequest c (ClientOp.processDocument content filename title)).body
      = (opRequest c (ClientOp.processDocumentV2 content filename title)).body ∧
    (opRequest c (ClientOp.processDocument content filename title)).url
      = c.baseUrl ++ "/api" ++ "/process" ∧
    (opRequest c (ClientOp.processDocumentV2 content filename title)).url
      = c.baseUrl ++ "/api" ++ "/v2/process" ∧
    ∀ resp : HttpResponse,
      runProg (opProg c (ClientOp.processDocument content filename title))
          (fun _ => resp) =
        runProg (opProg c (ClientOp.processDocumentV2 content filename title))
          (fun _ => resp) :=
  ⟨rfl, rfl, rfl, rfl, rfl, fun _ => rfl⟩

/-- C5: `query` POSTs a JSON body whose `question` member equals the
question argument and whose `document_ids` member equals the provided
list; the `document_ids` member is absent from the serialized body when
the argument is omitted, and no other member is sent. -/
theorem c5_query_body (c : Client) (question : String)
    (ids : Option (List String)) (l : List String) :
    (opRequest c (ClientOp.query question ids)).method = "POST" ∧
    (opRequest c (ClientOp.query question ids)).body =
      RequestBody.jsonObject (queryLiteral question ids) ∧
    serializedMembers (queryLiteral question none) =
      [("question", JsonValue.str question)] ∧
    serializedMembers (queryLiteral question (some l)) =
      [("question", JsonValue.str question),
       ("document_ids", JsonValue.arr (l.map JsonValue.str))] :=
  ⟨rfl, rfl, rfl, rfl⟩

/-- C1: every call answered with a non-2xx response fails; the failure
carries the server-reported detail verbatim so that the spec's taxonomy
kind determined by the failure condition applies, and an invalid bearer
token on any of list, get, delete and query yields the AuthError
condition with a message containing the invalid-key indicator. -/
theorem c1_error_taxonomy (c : Client) (id question : String)
    (ids : Option (List String)) (cond : ServerCondition) (d s : String)
    (r : HttpResponse) (hok : respOk r = false)
    (hp : r.parsed = ParsedBody.jsonBody (some (conditionDetail cond d)) s) :
    opResult c ClientOp.getDocuments (fun _ => r) =
      Except.error (conditionDetail cond d) ∧
    opResult c (ClientOp.getDocument id) (fun _ => r) =
      Except.error (conditionDetail cond d) ∧
    opResult c (ClientOp.deleteDocument id) (fun _ => r) =
      Except.error (conditionDetail cond d) ∧
    opResult c (ClientOp.query question ids) (fun _ => r) =
      Except.error (conditionDetail cond d) ∧
    (cond = ServerCondition.invalidKey →
      taxonomyKind cond = ErrorKind.authError ∧
      containsStr (conditionDetail cond d) invalidKeyDetail = true) ∧
    (∀ op : ClientOp, ∃ msg,
      opResult c op (fun _ => r) = Except.error msg) := by
  have h : ∀ op : ClientOp,
      opResult c op (fun _ => r) = Except.error (clientErrorMessage r) := by
    intro op
    rw [opResult_const]
    simp [clientHandleResponse, hok]
  have hmsg : clientErrorMessage r = conditionDetail cond d := by
    simp [clientErrorMessage, hp]
  refine ⟨?_, ?_, ?_, ?_, ?_, fun op => ⟨clientErrorMessage r, h op⟩⟩
  · rw [h, hmsg]
  · rw [h, hmsg]
  · rw [h, hmsg]
  · rw [h, hmsg]
  · intro hc
    subst hc
    refine ⟨rfl, ?_⟩
    show containsStr invalidKeyDetail invalidKeyDetail = true
    decide

/-- Witness for C1 at a concrete client, 401 response and invalid-key
detail. -/
theorem c1_error_taxonomy_witness :
    opResult sampleClient ClientOp.getDocuments (fun _ => authFailResponse) =
      Except.error "Invalid API key" ∧
    taxonomyKind ServerCondition.invalidKey = ErrorKind.authError ∧
    containsStr "Invalid API key" "Invalid API key" = true := by
  have h := c1_error_taxonomy sampleClient "doc-1" "what is this?" none
    ServerCondition.invalidKey "ignored" "st" authFailResponse
    (by decide) rfl
  exact ⟨h.1, (h.2.2.2.2.1 rfl).1, (h.2.2.2.2.1 rfl).2⟩

/-- C3 counterexample: on a non-2xx response whose body is not JSON the
client surfaces `HTTP <status>: <statusText>`, not the raw response
body, contradicting the claimed fallback. -/
theorem c3_raw_body_fallback_counterexample :
    clientHandleResponse plainFailResponse =
      Except.error "HTTP 500: Internal Server Error" ∧
    clientHandleResponse plainFailResponse ≠
      Except.error "upstream timeout" := by
  refine ⟨rfl, ?_⟩
  intro h
  have h1 : (Except.error "HTTP 500: Internal Server Error" :
      Except String ParsedBody) = Except.error "upstream timeout" := by
    rw [← h]
    rfl
  injection h1 with h2
  exact absurd h2 (by decide)

/-- C3 (amended): on a non-2xx response the client's `request` surfaces
exactly the server `detail` when the body is a JSON object containing
one, but for a non-JSON body it surfaces `HTTP <status>: <statusText>`
rather than the raw body; the scripts' `makeRequest` surfaces
`HTTP <status>: ` followed by the detail when present and non-empty, and
followed by the raw body for a non-JSON body. -/
theorem c3_error_message_surfacing (r : HttpResponse)
    (hok : respOk r = false) :
    (∀ d s, r.parsed = ParsedBody.jsonBody (some d) s →
      clientHandleResponse r = Except.error d) ∧
    (r.parsed = ParsedBody.notJson →
      clientHandleResponse r =
        Except.error ("HTTP " ++ toString r.status ++ ": " ++ r.statusText)) ∧
    (∀ d s, r.parsed = ParsedBody.jsonBody (some d) s → d ≠ "" →
      makeRequestResult r =
        Except.error ("HTTP " ++ toString r.status ++ ": " ++ d)) ∧
    (r.parsed = ParsedBody.notJson →
      makeRequestResult r =
        Except.error ("HTTP " ++ toString r.status ++ ": " ++ r.rawBody)) := by
  refine ⟨?_, ?_, ?_, ?_⟩
  · intro d s hp
    simp [clientHandleResponse, hok, clientErrorMessage, hp]
  · intro hp
    simp [clientHandleResponse, hok, clientErrorMessage, hp]
  · intro d s hp hd
    simp [makeRequestResult, hok, makeRequestErrorMessage, hp, jsOrStr, hd]
  · intro hp
    simp [makeRequestResult, hok, makeRequestErrorMessage, hp]

/-- Witness for C3 (amended) at concrete 404 and 502 responses. -/
theorem c3_error_message_surfacing_witness :
    clientHandleResponse notFoundResponse =
      Except.error "Document not found" ∧
    makeRequestResult gatewayFailResponse =
      Except.error "HTTP 502: gateway broke" := by
  have h1 := c3_error_message_surfacing notFoundResponse (by decide)
  have h2 := c3_error_message_surfacing gatewayFailResponse (by decide)
  exact ⟨h1.1 "Document not found" "st" rfl, h2.2.2.2 rfl⟩

/-- C9: constructing a client with no apiKey argument and an empty
INBOX_ZERO_API_KEY value fails with the key-required error before any
request exists; a non-empty key from either source makes construction
succeed, and the base URL defaults to the fixed service URL when none is
given. -/
theorem c9_constructor (b : Option String) (k env : String) :
    mkClient b none "" = Except.error keyRequiredMessage ∧
    (k ≠ "" → mkClient b (some k) env =
      Except.ok { baseUrl := jsOrStr b defaultBaseUrl, apiKey := k }) ∧
    (env ≠ "" → mkClient none none env =
      Except.ok { baseUrl := defaultBaseUrl, apiKey := env }) := by
  refine ⟨?_, ?_, ?_⟩
  · cases b with
    | none => rfl
    | some s => rfl
  · intro hk
    simp [mkClient, jsOrStr, hk]
  · intro henv
    simp [mkClient, jsOrStr, henv]

/-- Witness for C9: empty sources fail; an argument key and an
environment key each succeed with the default base URL. -/
theorem c9_constructor_witness :
    mkClient none none "" = Except.error keyRequiredMessage ∧
    mkClient none (some "arg-key") "" =
      Except.ok { baseUrl := defaultBaseUrl, apiKey := "arg-key" } ∧
    mkClient none none "env-key" =
      Except.ok { baseUrl := defaultBaseUrl, apiKey := "env-key" } := by
  have h := c9_constructor none "arg-key" ""
  have h2 := c9_constructor none "arg-key" "env-key"
  exact ⟨h.1, h.2.1 (by decide), h2.2.2 (by decide)⟩

/-- C10: for every document response, `getDocumentInsights` returns a
record with no absent field: the summary or the no-summary default, the
non-empty lines of `bullet_points` (empty when absent) never containing
an empty string, the topic list or the empty list, and the confidence
label or the unknown default. -/
theorem c10_document_insights (doc : DocumentResponse) :
    (∀ s, doc.summary = some s → s ≠ "" →
      (getDocumentInsights doc).summary = s) ∧
    (doc.summary = none →
      (getDocumentInsights doc).summary = "No summary available") ∧
    (∀ bp, doc.bullet_points = some bp →
      (getDocumentInsights doc).keyPoints =
        (splitNewlines bp).filter (fun l => l ≠ "")) ∧
    (doc.bullet_points = none → (getDocumentInsights doc).keyPoints = []) ∧
    (∀ k ∈ (getDocumentInsights doc).keyPoints, k ≠ "") ∧
    (∀ ts, doc.topics = some ts → (getDocumentInsights doc).topics = ts) ∧
    (doc.topics = none → (getDocumentInsights doc).topics = []) ∧
    (∀ cf, doc.confidence = some cf → cf ≠ "" →
      (getDocumentInsights doc).confidence = cf) ∧
    (doc.confidence = none →
      (getDocumentInsights doc).confidence = "unknown") := by
  refine ⟨?_, ?_, ?_, ?_, ?_, ?_, ?_, ?_, ?_⟩
  · intro s hs hne
    simp [getDocumentInsights, jsOrStr, hs, hne]
  · intro hs
    simp [getDocumentInsights, jsOrStr, hs]
  · intro bp hbp
    by_cases hz : bp = ""
    · subst hz
      simp [getDocumentInsights, hbp]
      decide
    · simp [getDocumentInsights, hbp, hz]
  · intro hbp
    simp [getDocumentInsights, hbp]
  · intro k hk
    rcases hdoc : doc.bullet_points with _ | bp
    · simp [getDocumentInsights, hdoc] at hk
    · by_cases hz : bp = ""
      · subst hz
        simp [getDocumentInsights, hdoc] at hk
      · simp only [getDocumentInsights, hdoc] at hk
        rw [if_neg hz] at hk
        exact of_decide_eq_true (List.mem_filter.mp hk).2
  · intro ts hts
    simp [getDocumentInsights, hts]
  · intro hts
    simp [getDocumentInsights, hts]
  · intro cf hcf hne
    simp [getDocumentInsights, jsOrStr, hcf, hne]
  · intro hcf
    simp [getDocumentInsights, jsOrStr, hcf]

/-- Witness for C10 at a concrete document with a blank line among the
bullet points and no confidence label. -/
theorem c10_document_insights_witness :
    (getDocumentInsights sampleDocument).summary = "Sum" ∧
    (getDocumentInsights sampleDocument).keyPoints = ["- a", "- b"] ∧
    (getDocumentInsights sampleDocument).topics = ["t1"] ∧
    (getDocumentInsights sampleDocument).confidence = "unknown" := by
  obtain ⟨h1, _, h3, _, _, h6, _, _, h9⟩ :=
    c10_document_insights sampleDocument
  refine ⟨h1 "Sum" rfl (by decide), ?_, h6 ["t1"] rfl, h9 rfl⟩
  rw [h3 "- a\n\n- b" rfl]
  decide

end NotebookBobu
